import Mathlib

/-!
Verification of the FFI schema visitor (`ffi/src/schema_visitor.rs`):
a handle-addressed arena of partially built schema elements, with
construction ("visit"), assembly (`build_kernel_schema`) and extraction
(`unwrap_kernel_schema`) operations.

The Rust `impl` functions are embedded as pure Lean functions that thread
the visitor state explicitly.  Fallible operations return
`Except String Nat` (the Rust `DeltaResult<usize>`), paired with the
resulting state.  Caller-supplied names arrive as `Except String String`,
mirroring the `DeltaResult<&str>` produced by string-slice validation at
the boundary.
-/

/-- A metadata value attached to a field.  The concrete value kinds come
from the external `delta_kernel::schema::MetadataValue`; the visitor never
inspects them, it only stores them. -/
inductive MetadataValue where
  | string (s : String) : MetadataValue
  | number (n : Int) : MetadataValue

/-- The metadata mapping of a field (Rust `HashMap<String, MetadataValue>`,
order irrelevant per the spec). -/
abbrev Metadata := List (String × MetadataValue)

/-- Modelled from the spec: `delta_kernel::schema::DecimalType` (external to
the sources under verification) is a decimal type carrying a `u8` precision
and a `u8` scale that have been validated by `DecimalType::try_new`. -/
structure DecimalType where
  precision : Nat
  scale : Nat

/-- Modelled from the spec: `DecimalType::try_new` validates precision and
scale against the underlying type system's legality rule — precision must
be at least 1 (precision 0 is invalid), scale must not exceed precision,
and precision is bounded by the type system's maximum of 38. -/
def DecimalType.try_new (precision : Nat) (scale : Nat) : Option DecimalType :=
  if 1 ≤ precision ∧ precision ≤ 38 ∧ scale ≤ precision then
    some (DecimalType.mk precision scale)
  else
    none

/-- The Rust `i8 -> u8` cast applied to the supplied decimal scale
(`scale as u8` in `visit_schema_decimal_impl`). -/
def i8_as_u8 (s : Int) : Nat := (s % 256).toNat

/-- `delta_kernel::schema::PrimitiveType` (the 12 parameterless primitive
kinds plus decimal). -/
inductive PrimitiveType where
  | string : PrimitiveType
  | long : PrimitiveType
  | integer : PrimitiveType
  | short : PrimitiveType
  | byte : PrimitiveType
  | float : PrimitiveType
  | double : PrimitiveType
  | boolean : PrimitiveType
  | binary : PrimitiveType
  | date : PrimitiveType
  | timestamp : PrimitiveType
  | timestampNtz : PrimitiveType
  | decimal (d : DecimalType) : PrimitiveType

mutual

/-- `delta_kernel::schema::DataType`. -/
inductive DataType where
  | primitive (p : PrimitiveType) : DataType
  | array (a : ArrayType) : DataType
  | map (m : MapType) : DataType
  | struct (s : StructType) : DataType
  | variant (s : StructType) : DataType

/-- `delta_kernel::schema::ArrayType` (`type_name` is the constant
serialization tag `"array"`). -/
inductive ArrayType where
  | mk (type_name : String) (element_type : DataType) (contains_null : Bool) : ArrayType

/-- `delta_kernel::schema::MapType` (`type_name` is the constant
serialization tag `"map"`). -/
inductive MapType where
  | mk (type_name : String) (key_type : DataType) (value_type : DataType)
      (value_contains_null : Bool) : MapType

/-- `delta_kernel::schema::StructType`: an ordered sequence of fields. -/
inductive StructType where
  | mk (fields : List StructField) : StructType

/-- `delta_kernel::schema::StructField`: name, data type, nullability and
metadata. -/
inductive StructField where
  | mk (name : String) (data_type : DataType) (nullable : Bool)
      (metadata : Metadata) : StructField

end

/-- Field list of a struct type. -/
def StructType.fields : StructType → List StructField
  | StructType.mk fs => fs

/-- Name of a field. -/
def StructField.name : StructField → String
  | StructField.mk n _ _ _ => n

/-- Data type of a field. -/
def StructField.data_type : StructField → DataType
  | StructField.mk _ dt _ _ => dt

/-- Nullability of a field. -/
def StructField.nullable : StructField → Bool
  | StructField.mk _ _ nb _ => nb

/-- Metadata of a field. -/
def StructField.metadata : StructField → Metadata
  | StructField.mk _ _ _ md => md

/-- `StructField::new(name, data_type, nullable)`: builds a field with empty
metadata. -/
def StructField.new (name : String) (data_type : DataType) (nullable : Bool) :
    StructField :=
  StructField.mk name data_type nullable []

/-- `StructField::with_metadata`: replaces the metadata of a field. -/
def StructField.with_metadata (f : StructField) (metadata : Metadata) :
    StructField :=
  StructField.mk f.name f.data_type f.nullable metadata

/-- `SchemaElement`: the tagged union of element kinds held by the arena
during construction. -/
inductive SchemaElement where
  | field (f : StructField) : SchemaElement
  | dataType (dt : DataType) : SchemaElement
  | schema (s : StructType) : SchemaElement

/-- First element stored under key `id`, if any. -/
def lookupFirst {α : Type} : List (Nat × α) → Nat → Option α
  | [], _ => none
  | (k, a) :: rest, id => if k = id then some a else lookupFirst rest id

/-- Remove the first entry stored under key `id`, returning it (if present)
and the remaining entries. -/
def removeFirst {α : Type} : List (Nat × α) → Nat → Option α × List (Nat × α)
  | [], _ => (none, [])
  | (k, a) :: rest, id =>
    if k = id then (some a, rest)
    else
      let r := removeFirst rest id
      (r.1, (k, a) :: r.2)

/-- Modelled from the spec: `ReferenceSet` (the handle arena, external to
the sources under verification).  `insert` issues monotonically increasing
handles that are never recycled; `take` removes and returns the element of
a live handle and reports absence for an unknown or already-consumed
handle. -/
structure ReferenceSet (α : Type) where
  next_id : Nat
  entries : List (Nat × α)

/-- Modelled from the spec: the empty arena; the first issued handle is 1
(0 is reserved as the boundary's failure sentinel). -/
def ReferenceSet.empty {α : Type} : ReferenceSet α :=
  ReferenceSet.mk 1 []

/-- Modelled from the spec: insertion returns a fresh, never-before-issued
handle and advances the issuance counter. -/
def ReferenceSet.insert {α : Type} (rs : ReferenceSet α) (a : α) :
    Nat × ReferenceSet α :=
  (rs.next_id, ReferenceSet.mk (rs.next_id + 1) ((rs.next_id, a) :: rs.entries))

/-- Modelled from the spec: `take` removes and returns the element if the
handle is currently live, and reports absence otherwise. -/
def ReferenceSet.take {α : Type} (rs : ReferenceSet α) (id : Nat) :
    Option α × ReferenceSet α :=
  let r := removeFirst rs.entries id
  (r.1, ReferenceSet.mk rs.next_id r.2)

/-- `KernelSchemaVisitorState`: the visitor state holding the element
arena. -/
structure KernelSchemaVisitorState where
  elements : ReferenceSet SchemaElement

/-- `wrap_field`: insert a `StructField` and return its handle. -/
def wrap_field (state : KernelSchemaVisitorState) (field : StructField) :
    Nat × KernelSchemaVisitorState :=
  let r := state.elements.insert (SchemaElement.field field)
  (r.1, KernelSchemaVisitorState.mk r.2)

/-- `wrap_data_type`: insert a `DataType` and return its handle. -/
def wrap_data_type (state : KernelSchemaVisitorState) (data_type : DataType) :
    Nat × KernelSchemaVisitorState :=
  let r := state.elements.insert (SchemaElement.dataType data_type)
  (r.1, KernelSchemaVisitorState.mk r.2)

/-- `wrap_schema`: insert a `StructType` and return its handle. -/
def wrap_schema (state : KernelSchemaVisitorState) (schema : StructType) :
    Nat × KernelSchemaVisitorState :=
  let r := state.elements.insert (SchemaElement.schema schema)
  (r.1, KernelSchemaVisitorState.mk r.2)

/-- `unwrap_data_type`: take the element and coerce it to a `DataType`
(a Field yields its contained type, a Schema is wrapped as a Struct
type). -/
def unwrap_data_type (state : KernelSchemaVisitorState) (type_id : Nat) :
    Option DataType × KernelSchemaVisitorState :=
  let r := state.elements.take type_id
  match r.1 with
  | none => (none, KernelSchemaVisitorState.mk r.2)
  | some (SchemaElement.dataType dt) => (some dt, KernelSchemaVisitorState.mk r.2)
  | some (SchemaElement.field f) => (some f.data_type, KernelSchemaVisitorState.mk r.2)
  | some (SchemaElement.schema sch) =>
      (some (DataType.struct sch), KernelSchemaVisitorState.mk r.2)

/-- `unwrap_field`: take the element; succeed only if it is a Field (the
element is removed from the arena even when the kind does not match). -/
def unwrap_field (state : KernelSchemaVisitorState) (field_id : Nat) :
    Option StructField × KernelSchemaVisitorState :=
  let r := state.elements.take field_id
  match r.1 with
  | some (SchemaElement.field f) => (some f, KernelSchemaVisitorState.mk r.2)
  | some _ => (none, KernelSchemaVisitorState.mk r.2)
  | none => (none, KernelSchemaVisitorState.mk r.2)

/-- `unwrap_kernel_schema`: take the element and coerce it to a finished
schema (a Schema directly, a lone Field as a one-field schema, a Struct
data type by unwrapping; anything else yields `none`). -/
def unwrap_kernel_schema (state : KernelSchemaVisitorState) (schema_id : Nat) :
    Option StructType × KernelSchemaVisitorState :=
  let r := state.elements.take schema_id
  match r.1 with
  | none => (none, KernelSchemaVisitorState.mk r.2)
  | some (SchemaElement.schema sch) => (some sch, KernelSchemaVisitorState.mk r.2)
  | some (SchemaElement.field f) =>
      (some (StructType.mk [f]), KernelSchemaVisitorState.mk r.2)
  | some (SchemaElement.dataType (DataType.struct st)) =>
      (some st, KernelSchemaVisitorState.mk r.2)
  | some (SchemaElement.dataType _) => (none, KernelSchemaVisitorState.mk r.2)

/-- `visit_schema_string_impl`. -/
def visit_schema_string_impl (state : KernelSchemaVisitorState)
    (name : Except String String) (nullable : Bool) (metadata : Metadata) :
    Except String Nat × KernelSchemaVisitorState :=
  match name with
  | Except.error e => (Except.error e, state)
  | Except.ok name_str =>
    let r := wrap_field state
      ((StructField.new name_str (DataType.primitive PrimitiveType.string)
        nullable).with_metadata metadata)
    (Except.ok r.1, r.2)

/-- `visit_schema_long_impl`. -/
def visit_schema_long_impl (state : KernelSchemaVisitorState)
    (name : Except String String) (nullable : Bool) (metadata : Metadata) :
    Except String Nat × KernelSchemaVisitorState :=
  match name with
  | Except.error e => (Except.error e, state)
  | Except.ok name_str =>
    let r := wrap_field state
      ((StructField.new name_str (DataType.primitive PrimitiveType.long)
        nullable).with_metadata metadata)
    (Except.ok r.1, r.2)

/-- `visit_schema_integer_impl`. -/
def visit_schema_integer_impl (state : KernelSchemaVisitorState)
    (name : Except String String) (nullable : Bool) (metadata : Metadata) :
    Except String Nat × KernelSchemaVisitorState :=
  match name with
  | Except.error e => (Except.error e, state)
  | Except.ok name_str =>
    let r := wrap_field state
      ((StructField.new name_str (DataType.primitive PrimitiveType.integer)
        nullable).with_metadata metadata)
    (Except.ok r.1, r.2)

/-- `visit_schema_boolean_impl`. -/
def visit_schema_boolean_impl (state : KernelSchemaVisitorState)
    (name : Except String String) (nullable : Bool) (metadata : Metadata) :
    Except String Nat × KernelSchemaVisitorState :=
  match name with
  | Except.error e => (Except.error e, state)
  | Except.ok name_str =>
    let r := wrap_field state
      ((StructField.new name_str (DataType.primitive PrimitiveType.boolean)
        nullable).with_metadata metadata)
    (Except.ok r.1, r.2)

/-- `visit_schema_double_impl`. -/
def visit_schema_double_impl (state : KernelSchemaVisitorState)
    (name : Except String String) (nullable : Bool) (metadata : Metadata) :
    Except String Nat × KernelSchemaVisitorState :=
  match name with
  | Except.error e => (Except.error e, state)
  | Except.ok name_str =>
    let r := wrap_field state
      ((StructField.new name_str (DataType.primitive PrimitiveType.double)
        nullable).with_metadata metadata)
    (Except.ok r.1, r.2)

/-- `visit_schema_short_impl`. -/
def visit_schema_short_impl (state : KernelSchemaVisitorState)
    (name : Except String String) (nullable : Bool) (metadata : Metadata) :
    Except String Nat × KernelSchemaVisitorState :=
  match name with
  | Except.error e => (Except.error e, state)
  | Except.ok name_str =>
    let r := wrap_field state
      ((StructField.new name_str (DataType.primitive PrimitiveType.short)
        nullable).with_metadata metadata)
    (Except.ok r.1, r.2)

/-- `visit_schema_byte_impl`. -/
def visit_schema_byte_impl (state : KernelSchemaVisitorState)
    (name : Except String String) (nullable : Bool) (metadata : Metadata) :
    Except String Nat × KernelSchemaVisitorState :=
  match name with
  | Except.error e => (Except.error e, state)
  | Except.ok name_str =>
    let r := wrap_field state
      ((StructField.new name_str (DataType.primitive PrimitiveType.byte)
        nullable).with_metadata metadata)
    (Except.ok r.1, r.2)

/-- `visit_schema_float_impl`. -/
def visit_schema_float_impl (state : KernelSchemaVisitorState)
    (name : Except String String) (nullable : Bool) (metadata : Metadata) :
    Except String Nat × KernelSchemaVisitorState :=
  match name with
  | Except.error e => (Except.error e, state)
  | Except.ok name_str =>
    let r := wrap_field state
      ((StructField.new name_str (DataType.primitive PrimitiveType.float)
        nullable).with_metadata metadata)
    (Except.ok r.1, r.2)

/-- `visit_schema_binary_impl`. -/
def visit_schema_binary_impl (state : KernelSchemaVisitorState)
    (name : Except String String) (nullable : Bool) (metadata : Metadata) :
    Except String Nat × KernelSchemaVisitorState :=
  match name with
  | Except.error e => (Except.error e, state)
  | Except.ok name_str =>
    let r := wrap_field state
      ((StructField.new name_str (DataType.primitive PrimitiveType.binary)
        nullable).with_metadata metadata)
    (Except.ok r.1, r.2)

/-- `visit_schema_date_impl`. -/
def visit_schema_date_impl (state : KernelSchemaVisitorState)
    (name : Except String String) (nullable : Bool) (metadata : Metadata) :
    Except String Nat × KernelSchemaVisitorState :=
  match name with
  | Except.error e => (Except.error e, state)
  | Except.ok name_str =>
    let r := wrap_field state
      ((StructField.new name_str (DataType.primitive PrimitiveType.date)
        nullable).with_metadata metadata)
    (Except.ok r.1, r.2)

/-- `visit_schema_timestamp_impl`. -/
def visit_schema_timestamp_impl (state : KernelSchemaVisitorState)
    (name : Except String String) (nullable : Bool) (metadata : Metadata) :
    Except String Nat × KernelSchemaVisitorState :=
  match name with
  | Except.error e => (Except.error e, state)
  | Except.ok name_str =>
    let r := wrap_field state
      ((StructField.new name_str (DataType.primitive PrimitiveType.timestamp)
        nullable).with_metadata metadata)
    (Except.ok r.1, r.2)

/-- `visit_schema_timestamp_ntz_impl`. -/
def visit_schema_timestamp_ntz_impl (state : KernelSchemaVisitorState)
    (name : Except String String) (nullable : Bool) (metadata : Metadata) :
    Except String Nat × KernelSchemaVisitorState :=
  match name with
  | Except.error e => (Except.error e, state)
  | Except.ok name_str =>
    let r := wrap_field state
      ((StructField.new name_str (DataType.primitive PrimitiveType.timestampNtz)
        nullable).with_metadata metadata)
    (Except.ok r.1, r.2)

/-- `visit_schema_decimal_impl`: validates precision/scale via
`DecimalType::try_new` (with the `scale as u8` cast) before building the
field. -/
def visit_schema_decimal_impl (state : KernelSchemaVisitorState)
    (name : Except String String) (precision : Nat) (scale : Int)
    (nullable : Bool) (metadata : Metadata) :
    Except String Nat × KernelSchemaVisitorState :=
  match name with
  | Except.error e => (Except.error e, state)
  | Except.ok name_str =>
    match DecimalType.try_new precision (i8_as_u8 scale) with
    | none => (Except.error "Invalid decimal type precision/scale", state)
    | some decimal_type =>
      let r := wrap_field state
        ((StructField.new name_str
          (DataType.primitive (PrimitiveType.decimal decimal_type))
          nullable).with_metadata metadata)
      (Except.ok r.1, r.2)

/-- The sequential child-resolution loop shared by
`visit_schema_struct_impl` and `build_kernel_schema_impl`: resolve each
handle via `unwrap_field` in order, returning the resolved fields, or the
error for the first handle that fails (the loop stops there; handles
already processed have been taken). -/
def extract_fields (ctx : String) :
    KernelSchemaVisitorState → List Nat →
    Except String (List StructField) × KernelSchemaVisitorState
  | state, [] => (Except.ok [], state)
  | state, field_id :: rest =>
    let r := unwrap_field state field_id
    match r.1 with
    | none =>
      (Except.error ("Invalid field ID " ++ toString field_id ++ " in " ++ ctx),
       r.2)
    | some f =>
      let r2 := extract_fields ctx r.2 rest
      match r2.1 with
      | Except.error e => (Except.error e, r2.2)
      | Except.ok fs => (Except.ok (f :: fs), r2.2)

/-- `visit_schema_struct_impl`: resolve every child handle as a field, in
order, then insert a Field whose type is a Struct of those fields. -/
def visit_schema_struct_impl (state : KernelSchemaVisitorState)
    (name : Except String String) (field_ids : List Nat) (nullable : Bool)
    (metadata : Metadata) :
    Except String Nat × KernelSchemaVisitorState :=
  match name with
  | Except.error e => (Except.error e, state)
  | Except.ok name_str =>
    let r := extract_fields "struct" state field_ids
    match r.1 with
    | Except.error e => (Except.error e, r.2)
    | Except.ok field_vec =>
      let struct_type := StructType.mk field_vec
      let data_type := DataType.struct struct_type
      let r2 := wrap_field r.2 ((StructField.new name_str data_type
        nullable).with_metadata metadata)
      (Except.ok r2.1, r2.2)

/-- `visit_schema_array_impl`: resolve the element type handle, then
insert an Array field. -/
def visit_schema_array_impl (state : KernelSchemaVisitorState)
    (name : Except String String) (element_type_id : Nat)
    (contains_null : Bool) (nullable : Bool) (metadata : Metadata) :
    Except String Nat × KernelSchemaVisitorState :=
  match name with
  | Except.error e => (Except.error e, state)
  | Except.ok name_str =>
    let r := unwrap_data_type state element_type_id
    match r.1 with
    | none =>
      (Except.error ("Invalid element type ID " ++ toString element_type_id
        ++ " for array"), r.2)
    | some element_type =>
      let array_type := ArrayType.mk "array" element_type contains_null
      let r2 := wrap_field r.2 ((StructField.new name_str
        (DataType.array array_type) nullable).with_metadata metadata)
      (Except.ok r2.1, r2.2)

/-- `visit_schema_map_impl`: resolve the key type handle, then the value
type handle, then insert a Map field. -/
def visit_schema_map_impl (state : KernelSchemaVisitorState)
    (name : Except String String) (key_type_id : Nat) (value_type_id : Nat)
    (value_contains_null : Bool) (nullable : Bool) (metadata : Metadata) :
    Except String Nat × KernelSchemaVisitorState :=
  match name with
  | Except.error e => (Except.error e, state)
  | Except.ok name_str =>
    let rk := unwrap_data_type state key_type_id
    match rk.1 with
    | none =>
      (Except.error ("Invalid key type ID " ++ toString key_type_id
        ++ " for map"), rk.2)
    | some key_type =>
      let rv := unwrap_data_type rk.2 value_type_id
      match rv.1 with
      | none =>
        (Except.error ("Invalid value type ID " ++ toString value_type_id
          ++ " for map"), rv.2)
      | some value_type =>
        let map_type := MapType.mk "map" key_type value_type value_contains_null
        let r2 := wrap_field rv.2 ((StructField.new name_str
          (DataType.map map_type) nullable).with_metadata metadata)
        (Except.ok r2.1, r2.2)

/-- `visit_schema_variant_impl`: take the child element, which must be a
Schema or a Struct data type, and insert a Variant field wrapping that
struct. -/
def visit_schema_variant_impl (state : KernelSchemaVisitorState)
    (name : Except String String) (variant_struct_id : Nat) (nullable : Bool)
    (metadata : Metadata) :
    Except String Nat × KernelSchemaVisitorState :=
  match name with
  | Except.error e => (Except.error e, state)
  | Except.ok name_str =>
    let r := state.elements.take variant_struct_id
    match r.1 with
    | some (SchemaElement.schema sch) =>
      let r2 := wrap_field (KernelSchemaVisitorState.mk r.2)
        ((StructField.new name_str (DataType.variant sch)
          nullable).with_metadata metadata)
      (Except.ok r2.1, r2.2)
    | some (SchemaElement.dataType (DataType.struct s)) =>
      let r2 := wrap_field (KernelSchemaVisitorState.mk r.2)
        ((StructField.new name_str (DataType.variant s)
          nullable).with_metadata metadata)
      (Except.ok r2.1, r2.2)
    | _ =>
      (Except.error ("Invalid variant struct ID " ++ toString variant_struct_id
        ++ " - must be Schema or Struct DataType"),
       KernelSchemaVisitorState.mk r.2)

/-- `build_kernel_schema_impl`: resolve every root field handle, in order,
and insert the resulting Schema element. -/
def build_kernel_schema_impl (state : KernelSchemaVisitorState)
    (field_ids : List Nat) :
    Except String Nat × KernelSchemaVisitorState :=
  let r := extract_fields "schema" state field_ids
  match r.1 with
  | Except.error e => (Except.error e, r.2)
  | Except.ok field_vec =>
    let schema := StructType.mk field_vec
    let r2 := wrap_schema r.2 schema
    (Except.ok r2.1, r2.2)

/-- `create_primitive_type_impl`: insert a bare primitive `DataType` from
its boundary type code (0-11). -/
def create_primitive_type_impl (state : KernelSchemaVisitorState)
    (primitive_type : Nat) :
    Except String Nat × KernelSchemaVisitorState :=
  match primitive_type with
  | 0 =>
    let r := wrap_data_type state (DataType.primitive PrimitiveType.string)
    (Except.ok r.1, r.2)
  | 1 =>
    let r := wrap_data_type state (DataType.primitive PrimitiveType.long)
    (Except.ok r.1, r.2)
  | 2 =>
    let r := wrap_data_type state (DataType.primitive PrimitiveType.integer)
    (Except.ok r.1, r.2)
  | 3 =>
    let r := wrap_data_type state (DataType.primitive PrimitiveType.short)
    (Except.ok r.1, r.2)
  | 4 =>
    let r := wrap_data_type state (DataType.primitive PrimitiveType.byte)
    (Except.ok r.1, r.2)
  | 5 =>
    let r := wrap_data_type state (DataType.primitive PrimitiveType.float)
    (Except.ok r.1, r.2)
  | 6 =>
    let r := wrap_data_type state (DataType.primitive PrimitiveType.double)
    (Except.ok r.1, r.2)
  | 7 =>
    let r := wrap_data_type state (DataType.primitive PrimitiveType.boolean)
    (Except.ok r.1, r.2)
  | 8 =>
    let r := wrap_data_type state (DataType.primitive PrimitiveType.binary)
    (Except.ok r.1, r.2)
  | 9 =>
    let r := wrap_data_type state (DataType.primitive PrimitiveType.date)
    (Except.ok r.1, r.2)
  | 10 =>
    let r := wrap_data_type state (DataType.primitive PrimitiveType.timestamp)
    (Except.ok r.1, r.2)
  | 11 =>
    let r := wrap_data_type state (DataType.primitive PrimitiveType.timestampNtz)
    (Except.ok r.1, r.2)
  | c =>
    (Except.error ("Invalid primitive type ID: " ++ toString c), state)

/-- `create_decimal_type_impl`: validate precision/scale and insert a bare
decimal `DataType`. -/
def create_decimal_type_impl (state : KernelSchemaVisitorState)
    (precision : Nat) (scale : Int) :
    Except String Nat × KernelSchemaVisitorState :=
  match DecimalType.try_new precision (i8_as_u8 scale) with
  | none => (Except.error "Invalid decimal type precision/scale", state)
  | some decimal_type =>
    let r := wrap_data_type state
      (DataType.primitive (PrimitiveType.decimal decimal_type))
    (Except.ok r.1, r.2)

/-- Modelled from the spec: `CStringMap` (external), the caller-supplied
metadata map before conversion; `to_metadata_map` converts it to the
kernel's metadata mapping. -/
structure CStringMap where
  pairs : Metadata

/-- Modelled from the spec: `CStringMap::to_metadata_map`. -/
def CStringMap.to_metadata_map (m : CStringMap) : Metadata :=
  m.pairs

/-- `visit_schema_string` (boundary layer): converts the optional metadata
map (absence means empty metadata) and calls the impl. -/
def visit_schema_string (state : KernelSchemaVisitorState)
    (name : Except String String) (nullable : Bool)
    (metadata : Option CStringMap) :
    Except String Nat × KernelSchemaVisitorState :=
  let metadata_map := (metadata.map CStringMap.to_metadata_map).getD []
  visit_schema_string_impl state name nullable metadata_map

/-- `visit_schema_long` (boundary layer). -/
def visit_schema_long (state : KernelSchemaVisitorState)
    (name : Except String String) (nullable : Bool)
    (metadata : Option CStringMap) :
    Except String Nat × KernelSchemaVisitorState :=
  let metadata_map := (metadata.map CStringMap.to_metadata_map).getD []
  visit_schema_long_impl state name nullable metadata_map

/-- `visit_schema_boolean` (boundary layer). -/
def visit_schema_boolean (state : KernelSchemaVisitorState)
    (name : Except String String) (nullable : Bool)
    (metadata : Option CStringMap) :
    Except String Nat × KernelSchemaVisitorState :=
  let metadata_map := (metadata.map CStringMap.to_metadata_map).getD []
  visit_schema_boolean_impl state name nullable metadata_map

/-- `visit_schema_string_simple`: backward-compatibility wrapper calling
`visit_schema_string` with no metadata. -/
def visit_schema_string_simple (state : KernelSchemaVisitorState)
    (name : Except String String) (nullable : Bool) :
    Except String Nat × KernelSchemaVisitorState :=
  visit_schema_string state name nullable none

/-- `visit_schema_long_simple`: backward-compatibility wrapper calling
`visit_schema_long` with no metadata. -/
def visit_schema_long_simple (state : KernelSchemaVisitorState)
    (name : Except String String) (nullable : Bool) :
    Except String Nat × KernelSchemaVisitorState :=
  visit_schema_long state name nullable none

/-- `visit_schema_boolean_simple`: backward-compatibility wrapper calling
`visit_schema_boolean` with no metadata. -/
def visit_schema_boolean_simple (state : KernelSchemaVisitorState)
    (name : Except String String) (nullable : Bool) :
    Except String Nat × KernelSchemaVisitorState :=
  visit_schema_boolean state name nullable none

/-- The twelve parameterless primitive leaf kinds, used to quantify over
the corresponding `visit_schema_*` operations. -/
inductive LeafKind where
  | string | long | integer | short | byte | float
  | double | boolean | binary | date | timestamp | timestampNtz

/-- Dispatch from a leaf kind to its `visit_schema_*_impl` operation. -/
def leafImpl : LeafKind → KernelSchemaVisitorState → Except String String →
    Bool → Metadata → Except String Nat × KernelSchemaVisitorState
  | LeafKind.string => visit_schema_string_impl
  | LeafKind.long => visit_schema_long_impl
  | LeafKind.integer => visit_schema_integer_impl
  | LeafKind.short => visit_schema_short_impl
  | LeafKind.byte => visit_schema_byte_impl
  | LeafKind.float => visit_schema_float_impl
  | LeafKind.double => visit_schema_double_impl
  | LeafKind.boolean => visit_schema_boolean_impl
  | LeafKind.binary => visit_schema_binary_impl
  | LeafKind.date => visit_schema_date_impl
  | LeafKind.timestamp => visit_schema_timestamp_impl
  | LeafKind.timestampNtz => visit_schema_timestamp_ntz_impl

/-- The primitive type produced by each leaf kind's operation. -/
def leafPrim : LeafKind → PrimitiveType
  | LeafKind.string => PrimitiveType.string
  | LeafKind.long => PrimitiveType.long
  | LeafKind.integer => PrimitiveType.integer
  | LeafKind.short => PrimitiveType.short
  | LeafKind.byte => PrimitiveType.byte
  | LeafKind.float => PrimitiveType.float
  | LeafKind.double => PrimitiveType.double
  | LeafKind.boolean => PrimitiveType.boolean
  | LeafKind.binary => PrimitiveType.binary
  | LeafKind.date => PrimitiveType.date
  | LeafKind.timestamp => PrimitiveType.timestamp
  | LeafKind.timestampNtz => PrimitiveType.timestampNtz

/-- One call of the visitor API: every Construction, Assembly or
Extraction operation, with its non-handle arguments. -/
inductive Op where
  | leaf (k : LeafKind) (name : Except String String) (nullable : Bool)
      (md : Metadata) : Op
  | decimalOp (name : Except String String) (precision : Nat) (scale : Int)
      (nullable : Bool) (md : Metadata) : Op
  | structOp (name : Except String String) (field_ids : List Nat)
      (nullable : Bool) (md : Metadata) : Op
  | arrayOp (name : Except String String) (element_type_id : Nat)
      (contains_null : Bool) (nullable : Bool) (md : Metadata) : Op
  | mapOp (name : Except String String) (key_type_id : Nat)
      (value_type_id : Nat) (value_contains_null : Bool) (nullable : Bool)
      (md : Metadata) : Op
  | variantOp (name : Except String String) (variant_struct_id : Nat)
      (nullable : Bool) (md : Metadata) : Op
  | buildSchema (field_ids : List Nat) : Op
  | extractSchema (schema_id : Nat) : Op
  | createPrim (code : Nat) : Op
  | createDec (precision : Nat) (scale : Int) : Op

/-- The state reached after one visitor operation. -/
def stepState (s : KernelSchemaVisitorState) : Op → KernelSchemaVisitorState
  | Op.leaf k name nullable md => (leafImpl k s name nullable md).2
  | Op.decimalOp name p sc nullable md =>
      (visit_schema_decimal_impl s name p sc nullable md).2
  | Op.structOp name ids nullable md =>
      (visit_schema_struct_impl s name ids nullable md).2
  | Op.arrayOp name eid cn nullable md =>
      (visit_schema_array_impl s name eid cn nullable md).2
  | Op.mapOp name kid vid vcn nullable md =>
      (visit_schema_map_impl s name kid vid vcn nullable md).2
  | Op.variantOp name vsid nullable md =>
      (visit_schema_variant_impl s name vsid nullable md).2
  | Op.buildSchema ids => (build_kernel_schema_impl s ids).2
  | Op.extractSchema sid => (unwrap_kernel_schema s sid).2
  | Op.createPrim code => (create_primitive_type_impl s code).2
  | Op.createDec p sc => (create_decimal_type_impl s p sc).2

/-- The state reached after a sequence of visitor operations. -/
def runOps : KernelSchemaVisitorState → List Op → KernelSchemaVisitorState
  | s, [] => s
  | s, op :: rest => runOps (stepState s op) rest

/-- A visitor state is well formed when every live handle is smaller than
the issuance counter (every reachable state satisfies this). -/
def Wf (s : KernelSchemaVisitorState) : Prop :=
  ∀ h ∈ s.elements.entries.map Prod.fst, h < s.elements.next_id

/-- A handle is dead in a state when it resolves to no live element. -/
def deadIn (s : KernelSchemaVisitorState) (h : Nat) : Prop :=
  lookupFirst s.elements.entries h = none

/-- One operation's state change, as seen by a dead handle: the issuance
counter never decreases, and a handle that is dead and below the counter
stays dead. -/
def StepOk (s s' : KernelSchemaVisitorState) : Prop :=
  (Wf s → Wf s') ∧
  s.elements.next_id ≤ s'.elements.next_id ∧
  (∀ h, h < s.elements.next_id → deadIn s h → deadIn s' h)

theorem lookupFirst_eq_none_iff {α : Type} (l : List (Nat × α)) (h : Nat) :
    lookupFirst l h = none ↔ h ∉ l.map Prod.fst := by
  induction l with
  | nil => simp [lookupFirst]
  | cons p rest ih =>
    obtain ⟨k, a⟩ := p
    simp only [lookupFirst, List.map_cons, List.mem_cons]
    by_cases hk : k = h
    · subst hk; simp
    · simp [hk, ih, Ne.symm hk]

theorem removeFirst_fst {α : Type} (l : List (Nat × α)) (id : Nat) :
    (removeFirst l id).1 = lookupFirst l id := by
  induction l with
  | nil => rfl
  | cons p rest ih =>
    obtain ⟨k, a⟩ := p
    simp only [removeFirst, lookupFirst]
    by_cases hk : k = id
    · simp [hk]
    · simp [hk, ih]

theorem removeFirst_sublist {α : Type} (l : List (Nat × α)) (id : Nat) :
    (removeFirst l id).2.Sublist l := by
  induction l with
  | nil => simp [removeFirst]
  | cons p rest ih =>
    obtain ⟨k, a⟩ := p
    simp only [removeFirst]
    by_cases hk : k = id
    · simp [hk]
    · simp [hk]
      exact ih

theorem lookupFirst_removeFirst_ne {α : Type} (l : List (Nat × α))
    (id h : Nat) (hne : h ≠ id) :
    lookupFirst (removeFirst l id).2 h = lookupFirst l h := by
  induction l with
  | nil => rfl
  | cons p rest ih =>
    obtain ⟨k, a⟩ := p
    simp only [removeFirst, lookupFirst]
    by_cases hk : k = id
    · have hk2 : ¬ (k = h) := by
        rw [hk]
        exact Ne.symm hne
      simp [hk, hk2, Ne.symm hne, lookupFirst]
    · by_cases hkh : k = h
      · simp [hk, hkh, hne, lookupFirst]
      · simp [hk, hkh, lookupFirst, ih]

theorem sublist_lookup_none {α : Type} {l l' : List (Nat × α)}
    (hs : l'.Sublist l) (h : Nat) (hn : lookupFirst l h = none) :
    lookupFirst l' h = none := by
  rw [lookupFirst_eq_none_iff] at hn ⊢
  exact fun hc => hn (hs.map Prod.fst |>.mem hc)

/-- The relation between a state and the state after taking only (no
insertion): counter unchanged, entries a sublist. -/
def TakeLike (s s' : KernelSchemaVisitorState) : Prop :=
  s'.elements.next_id = s.elements.next_id ∧
  s'.elements.entries.Sublist s.elements.entries

theorem takeLike_refl (s : KernelSchemaVisitorState) : TakeLike s s :=
  ⟨rfl, List.Sublist.refl _⟩

theorem takeLike_trans {s1 s2 s3 : KernelSchemaVisitorState}
    (h12 : TakeLike s1 s2) (h23 : TakeLike s2 s3) : TakeLike s1 s3 :=
  ⟨h23.1.trans h12.1, h23.2.trans h12.2⟩

theorem stepOk_of_takeLike {s s' : KernelSchemaVisitorState}
    (h : TakeLike s s') : StepOk s s' := by
  refine ⟨?_, le_of_eq h.1.symm, ?_⟩
  · intro hw x hx
    rw [h.1]
    exact hw x ((h.2.map Prod.fst).mem hx)
  · intro x _ hd
    exact sublist_lookup_none h.2 x hd

theorem stepOk_refl (s : KernelSchemaVisitorState) : StepOk s s :=
  stepOk_of_takeLike (takeLike_refl s)

theorem stepOk_trans {s1 s2 s3 : KernelSchemaVisitorState}
    (h12 : StepOk s1 s2) (h23 : StepOk s2 s3) : StepOk s1 s3 := by
  refine ⟨fun hw => h23.1 (h12.1 hw), h12.2.1.trans h23.2.1, ?_⟩
  intro h hlt hd
  exact h23.2.2 h (lt_of_lt_of_le hlt h12.2.1) (h12.2.2 h hlt hd)

theorem take_takeLike (s : KernelSchemaVisitorState) (id : Nat) :
    TakeLike s (KernelSchemaVisitorState.mk (s.elements.take id).2) :=
  ⟨rfl, removeFirst_sublist _ _⟩

theorem unwrap_field_takeLike (s : KernelSchemaVisitorState) (id : Nat) :
    TakeLike s (unwrap_field s id).2 := by
  unfold unwrap_field
  rcases hr : (s.elements.take id).1 with _ | el
  · simpa [hr] using take_takeLike s id
  · cases el <;> simpa [hr] using take_takeLike s id

theorem unwrap_data_type_takeLike (s : KernelSchemaVisitorState) (id : Nat) :
    TakeLike s (unwrap_data_type s id).2 := by
  unfold unwrap_data_type
  rcases hr : (s.elements.take id).1 with _ | el
  · simpa [hr] using take_takeLike s id
  · cases el <;> simpa [hr] using take_takeLike s id

theorem unwrap_kernel_schema_takeLike (s : KernelSchemaVisitorState)
    (id : Nat) : TakeLike s (unwrap_kernel_schema s id).2 := by
  unfold unwrap_kernel_schema
  rcases hr : (s.elements.take id).1 with _ | el
  · simpa [hr] using take_takeLike s id
  · cases el with
    | field f => simpa [hr] using take_takeLike s id
    | schema st => simpa [hr] using take_takeLike s id
    | dataType dt => cases dt <;> simpa [hr] using take_takeLike s id

theorem extract_fields_takeLike (ctx : String) :
    ∀ (ids : List Nat) (s : KernelSchemaVisitorState),
    TakeLike s (extract_fields ctx s ids).2
  | [], s => takeLike_refl s
  | id :: rest, s => by
    unfold extract_fields
    rcases hr : (unwrap_field s id).1 with _ | f
    · simpa [hr] using unwrap_field_takeLike s id
    · simp only [hr]
      have h1 := unwrap_field_takeLike s id
      have h2 := extract_fields_takeLike ctx rest (unwrap_field s id).2
      rcases hr2 : (extract_fields ctx (unwrap_field s id).2 rest).1 with e | fs
      · simpa [hr2] using takeLike_trans h1 h2
      · simpa [hr2] using takeLike_trans h1 h2

theorem insert_StepOk (s : KernelSchemaVisitorState) (a : SchemaElement) :
    StepOk s (KernelSchemaVisitorState.mk (s.elements.insert a).2) := by
  refine ⟨?_, ?_, ?_⟩
  · intro hw x hx
    simp only [ReferenceSet.insert, List.map_cons, List.mem_cons] at hx ⊢
    rcases hx with hx | hx
    · simp [hx]
    · exact Nat.lt_succ_of_lt (hw x hx)
  · simp [ReferenceSet.insert]
  · intro h hlt hd
    have hne : ¬ (s.elements.next_id = h) := fun hc => absurd hc.symm (Nat.ne_of_lt hlt)
    simpa [deadIn, ReferenceSet.insert, lookupFirst, hne] using hd

theorem wrap_field_StepOk (s : KernelSchemaVisitorState) (f : StructField) :
    StepOk s (wrap_field s f).2 :=
  insert_StepOk s (SchemaElement.field f)

theorem wrap_data_type_StepOk (s : KernelSchemaVisitorState) (dt : DataType) :
    StepOk s (wrap_data_type s dt).2 :=
  insert_StepOk s (SchemaElement.dataType dt)

theorem wrap_schema_StepOk (s : KernelSchemaVisitorState) (st : StructType) :
    StepOk s (wrap_schema s st).2 :=
  insert_StepOk s (SchemaElement.schema st)

theorem leafImpl_StepOk (k : LeafKind) (s : KernelSchemaVisitorState)
    (name : Except String String) (nb : Bool) (md : Metadata) :
    StepOk s (leafImpl k s name nb md).2 := by
  cases k <;> cases name <;>
    first
      | exact stepOk_refl s
      | exact wrap_field_StepOk s _

theorem decimal_StepOk (s : KernelSchemaVisitorState)
    (name : Except String String) (p : Nat) (sc : Int) (nb : Bool)
    (md : Metadata) :
    StepOk s (visit_schema_decimal_impl s name p sc nb md).2 := by
  cases name with
  | error e => exact stepOk_refl s
  | ok n =>
    unfold visit_schema_decimal_impl
    rcases htn : DecimalType.try_new p (i8_as_u8 sc) with _ | dt
    · simpa [htn] using stepOk_refl s
    · simpa [htn] using wrap_field_StepOk s _

theorem struct_StepOk (s : KernelSchemaVisitorState)
    (name : Except String String) (ids : List Nat) (nb : Bool)
    (md : Metadata) :
    StepOk s (visit_schema_struct_impl s name ids nb md).2 := by
  cases name with
  | error e => exact stepOk_refl s
  | ok n =>
    unfold visit_schema_struct_impl
    have hex := stepOk_of_takeLike (extract_fields_takeLike "struct" ids s)
    rcases hr : (extract_fields "struct" s ids).1 with e | fs
    · simpa [hr] using hex
    · simpa [hr] using stepOk_trans hex (wrap_field_StepOk _ _)

theorem array_StepOk (s : KernelSchemaVisitorState)
    (name : Except String String) (eid : Nat) (cn nb : Bool)
    (md : Metadata) :
    StepOk s (visit_schema_array_impl s name eid cn nb md).2 := by
  cases name with
  | error e => exact stepOk_refl s
  | ok n =>
    unfold visit_schema_array_impl
    have hu := stepOk_of_takeLike (unwrap_data_type_takeLike s eid)
    rcases hr : (unwrap_data_type s eid).1 with _ | et
    · simpa [hr] using hu
    · simpa [hr] using stepOk_trans hu (wrap_field_StepOk _ _)

theorem map_StepOk (s : KernelSchemaVisitorState)
    (name : Except String String) (kid vid : Nat) (vcn nb : Bool)
    (md : Metadata) :
    StepOk s (visit_schema_map_impl s name kid vid vcn nb md).2 := by
  cases name with
  | error e => exact stepOk_refl s
  | ok n =>
    unfold visit_schema_map_impl
    have hk := stepOk_of_takeLike (unwrap_data_type_takeLike s kid)
    rcases hr : (unwrap_data_type s kid).1 with _ | kt
    · simpa [hr] using hk
    · have hv := stepOk_of_takeLike
        (unwrap_data_type_takeLike (unwrap_data_type s kid).2 vid)
      rcases hr2 : (unwrap_data_type (unwrap_data_type s kid).2 vid).1 with _ | vt
      · simpa [hr, hr2] using stepOk_trans hk hv
      · simpa [hr, hr2] using stepOk_trans (stepOk_trans hk hv) (wrap_field_StepOk _ _)

theorem variant_StepOk (s : KernelSchemaVisitorState)
    (name : Except String String) (vsid : Nat) (nb : Bool)
    (md : Metadata) :
    StepOk s (visit_schema_variant_impl s name vsid nb md).2 := by
  cases name with
  | error e => exact stepOk_refl s
  | ok n =>
    unfold visit_schema_variant_impl
    have ht := stepOk_of_takeLike (take_takeLike s vsid)
    rcases hr : (s.elements.take vsid).1 with _ | el
    · simpa [hr] using ht
    · cases el with
      | field f => simpa [hr] using ht
      | schema st => simpa [hr] using stepOk_trans ht (wrap_field_StepOk _ _)
      | dataType dt =>
        cases dt <;>
          first
            | (simpa [hr] using stepOk_trans ht (wrap_field_StepOk _ _))
            | simpa [hr] using ht

theorem build_StepOk (s : KernelSchemaVisitorState) (ids : List Nat) :
    StepOk s (build_kernel_schema_impl s ids).2 := by
  unfold build_kernel_schema_impl
  have hex := stepOk_of_takeLike (extract_fields_takeLike "schema" ids s)
  rcases hr : (extract_fields "schema" s ids).1 with e | fs
  · simpa [hr] using hex
  · simpa [hr] using stepOk_trans hex (wrap_schema_StepOk _ _)

theorem createPrim_StepOk (s : KernelSchemaVisitorState) (code : Nat) :
    StepOk s (create_primitive_type_impl s code).2 := by
  rcases code with _|_|_|_|_|_|_|_|_|_|_|_|c <;>
    first
      | exact wrap_data_type_StepOk s _
      | exact stepOk_refl s

theorem createDec_StepOk (s : KernelSchemaVisitorState) (p : Nat) (sc : Int) :
    StepOk s (create_decimal_type_impl s p sc).2 := by
  unfold create_decimal_type_impl
  rcases htn : DecimalType.try_new p (i8_as_u8 sc) with _ | dt
  · simpa [htn] using stepOk_refl s
  · simpa [htn] using wrap_data_type_StepOk s _

theorem stepState_StepOk (s : KernelSchemaVisitorState) (op : Op) :
    StepOk s (stepState s op) := by
  cases op with
  | leaf k name nb md => exact leafImpl_StepOk k s name nb md
  | decimalOp name p sc nb md => exact decimal_StepOk s name p sc nb md
  | structOp name ids nb md => exact struct_StepOk s name ids nb md
  | arrayOp name eid cn nb md => exact array_StepOk s name eid cn nb md
  | mapOp name kid vid vcn nb md => exact map_StepOk s name kid vid vcn nb md
  | variantOp name vsid nb md => exact variant_StepOk s name vsid nb md
  | buildSchema ids => exact build_StepOk s ids
  | extractSchema sid =>
    exact stepOk_of_takeLike (unwrap_kernel_schema_takeLike s sid)
  | createPrim code => exact createPrim_StepOk s code
  | createDec p sc => exact createDec_StepOk s p sc

theorem runOps_StepOk (ops : List Op) :
    ∀ s : KernelSchemaVisitorState, StepOk s (runOps s ops) := by
  induction ops with
  | nil => intro s; exact stepOk_refl s
  | cons op rest ih =>
    intro s
    exact stepOk_trans (stepState_StepOk s op) (ih (stepState s op))

/-- C2: a handle that has been consumed (it is below the issuance counter
and no longer maps to a live element) stays unresolvable after any further
sequence of visitor operations: it never becomes live again, `take` reports
absence, and every resolution helper (`unwrap_field`, `unwrap_data_type`,
`unwrap_kernel_schema`) fails on it — consumed handles are never re-issued,
so a stale handle cannot alias a later-inserted element. -/
theorem consumed_handle_stays_dead
    (s : KernelSchemaVisitorState) (h : Nat) (ops : List Op)
    (hlt : h < s.elements.next_id) (hdead : deadIn s h) :
    deadIn (runOps s ops) h ∧
    ((runOps s ops).elements.take h).1 = none ∧
    (unwrap_field (runOps s ops) h).1 = none ∧
    (unwrap_data_type (runOps s ops) h).1 = none ∧
    (unwrap_kernel_schema (runOps s ops) h).1 = none := by
  have hso := runOps_StepOk ops s
  have hd : deadIn (runOps s ops) h := hso.2.2 h hlt hdead
  have htake : ((runOps s ops).elements.take h).1 = none := by
    simpa [ReferenceSet.take, removeFirst_fst] using hd
  exact ⟨hd, htake,
    by simp [unwrap_field, htake],
    by simp [unwrap_data_type, htake],
    by simp [unwrap_kernel_schema, htake]⟩

/-- Witness for C2 at a concrete state (handle 1 already consumed, counter
at 2) and a concrete operation sequence that inserts a new field and a
schema. -/
theorem consumed_handle_stays_dead_witness :
    1 < (KernelSchemaVisitorState.mk (ReferenceSet.mk 2
      [])).elements.next_id ∧
    deadIn (KernelSchemaVisitorState.mk (ReferenceSet.mk 2 [])) 1 ∧
    (deadIn (runOps (KernelSchemaVisitorState.mk (ReferenceSet.mk 2 []))
      [Op.leaf LeafKind.string (Except.ok "x") true [],
       Op.buildSchema [2]]) 1 ∧
     ((runOps (KernelSchemaVisitorState.mk (ReferenceSet.mk 2 []))
      [Op.leaf LeafKind.string (Except.ok "x") true [],
       Op.buildSchema [2]]).elements.take 1).1 = none ∧
     (unwrap_field (runOps (KernelSchemaVisitorState.mk (ReferenceSet.mk 2 []))
      [Op.leaf LeafKind.string (Except.ok "x") true [],
       Op.buildSchema [2]]) 1).1 = none ∧
     (unwrap_data_type (runOps (KernelSchemaVisitorState.mk (ReferenceSet.mk 2 []))
      [Op.leaf LeafKind.string (Except.ok "x") true [],
       Op.buildSchema [2]]) 1).1 = none ∧
     (unwrap_kernel_schema (runOps (KernelSchemaVisitorState.mk (ReferenceSet.mk 2 []))
      [Op.leaf LeafKind.string (Except.ok "x") true [],
       Op.buildSchema [2]]) 1).1 = none) :=
  ⟨by decide, rfl,
   consumed_handle_stays_dead (KernelSchemaVisitorState.mk (ReferenceSet.mk 2 []))
     1
     [Op.leaf LeafKind.string (Except.ok "x") true [],
      Op.buildSchema [2]]
     (by decide) rfl⟩

/-- C5: `unwrap_kernel_schema` returns the schema directly for a Schema
element, synthesizes a one-field schema for a lone Field, unwraps a Struct
data type to its field list, and produces no schema for any other element
kind or a dead handle. -/
theorem unwrap_kernel_schema_characterization
    (s : KernelSchemaVisitorState) (h : Nat) :
    (unwrap_kernel_schema s h).1 =
      match lookupFirst s.elements.entries h with
      | some (SchemaElement.schema st) => some st
      | some (SchemaElement.field f) => some (StructType.mk [f])
      | some (SchemaElement.dataType (DataType.struct st)) => some st
      | some (SchemaElement.dataType _) => none
      | none => none := by
  unfold unwrap_kernel_schema
  have ht : (s.elements.take h).1 = lookupFirst s.elements.entries h := by
    simp [ReferenceSet.take, removeFirst_fst]
  rcases hl : lookupFirst s.elements.entries h with _ | el
  · simp [ht, hl]
  · cases el with
    | field f => simp [ht, hl]
    | schema st => simp [ht, hl]
    | dataType dt => cases dt <;> simp [ht, hl]

/-- C6: `unwrap_data_type` succeeds on every live element — a Field yields
its contained type, a DataType yields itself, a Schema is wrapped as a
Struct type — and fails exactly on an unknown or already-consumed
handle. -/
theorem unwrap_data_type_characterization
    (s : KernelSchemaVisitorState) (h : Nat) :
    (unwrap_data_type s h).1 =
      match lookupFirst s.elements.entries h with
      | some (SchemaElement.field f) => some f.data_type
      | some (SchemaElement.dataType dt) => some dt
      | some (SchemaElement.schema st) => some (DataType.struct st)
      | none => none := by
  unfold unwrap_data_type
  have ht : (s.elements.take h).1 = lookupFirst s.elements.entries h := by
    simp [ReferenceSet.take, removeFirst_fst]
  rcases hl : lookupFirst s.elements.entries h with _ | el
  · simp [ht, hl]
  · cases el <;> simp [ht, hl]

/-- The element newly inserted by `wrap_field` is live at the handle it
returns. -/
theorem lookup_wrap_field (s : KernelSchemaVisitorState) (f : StructField) :
    lookupFirst (wrap_field s f).2.elements.entries s.elements.next_id =
      some (SchemaElement.field f) := by
  simp [wrap_field, ReferenceSet.insert, lookupFirst]

/-- The element newly inserted by `wrap_schema` is live at the handle it
returns. -/
theorem lookup_wrap_schema (s : KernelSchemaVisitorState) (st : StructType) :
    lookupFirst (wrap_schema s st).2.elements.entries s.elements.next_id =
      some (SchemaElement.schema st) := by
  simp [wrap_schema, ReferenceSet.insert, lookupFirst]

/-- The element newly inserted by `wrap_data_type` is live at the handle it
returns. -/
theorem lookup_wrap_data_type (s : KernelSchemaVisitorState) (dt : DataType) :
    lookupFirst (wrap_data_type s dt).2.elements.entries s.elements.next_id =
      some (SchemaElement.dataType dt) := by
  simp [wrap_data_type, ReferenceSet.insert, lookupFirst]

/-- C10: both assembly and struct construction accept an empty child list:
`build_kernel_schema` with zero field handles inserts a Schema with zero
fields, and `visit_schema_struct` with zero child handles and a valid name
inserts a Field whose type is an empty Struct. -/
theorem empty_child_lists_accepted (s : KernelSchemaVisitorState)
    (name : String) (nb : Bool) (md : Metadata) :
    (build_kernel_schema_impl s []).1 = Except.ok s.elements.next_id ∧
    lookupFirst (build_kernel_schema_impl s []).2.elements.entries
      s.elements.next_id = some (SchemaElement.schema (StructType.mk [])) ∧
    (visit_schema_struct_impl s (Except.ok name) [] nb md).1 =
      Except.ok s.elements.next_id ∧
    lookupFirst (visit_schema_struct_impl s (Except.ok name) []
      nb md).2.elements.entries s.elements.next_id =
      some (SchemaElement.field (StructField.mk name
        (DataType.struct (StructType.mk [])) nb md)) := by
  refine ⟨?_, ?_, ?_, ?_⟩ <;>
    simp [build_kernel_schema_impl, visit_schema_struct_impl, extract_fields,
      wrap_schema, wrap_field, StructField.new, StructField.with_metadata,
      StructField.name, StructField.data_type, StructField.nullable,
      ReferenceSet.insert, lookupFirst]

/-- C9: each backward-compatibility simple operation is observationally
equal to the corresponding full operation invoked with no metadata, and
both equal the impl invoked with the empty metadata map: same returned
handle or error and same resulting arena state. -/
theorem simple_variants_equal_full (s : KernelSchemaVisitorState)
    (name : Except String String) (nb : Bool) :
    visit_schema_string_simple s name nb = visit_schema_string s name nb none ∧
    visit_schema_string s name nb none = visit_schema_string_impl s name nb [] ∧
    visit_schema_long_simple s name nb = visit_schema_long s name nb none ∧
    visit_schema_long s name nb none = visit_schema_long_impl s name nb [] ∧
    visit_schema_boolean_simple s name nb = visit_schema_boolean s name nb none ∧
    visit_schema_boolean s name nb none = visit_schema_boolean_impl s name nb [] :=
  ⟨rfl, rfl, rfl, rfl, rfl, rfl⟩

/-- C3: for every primitive leaf kind and nullability, building a leaf
field with a valid name, assembling a one-field schema from its handle and
extracting it yields a schema whose sole field has exactly the supplied
name, the primitive type of that kind, and the supplied nullability. -/
theorem primitive_round_trip (k : LeafKind) (s : KernelSchemaVisitorState)
    (name : String) (nb : Bool) (md : Metadata) :
    (leafImpl k s (Except.ok name) nb md).1 = Except.ok s.elements.next_id ∧
    (build_kernel_schema_impl (leafImpl k s (Except.ok name) nb md).2
      [s.elements.next_id]).1 =
      Except.ok (leafImpl k s (Except.ok name) nb md).2.elements.next_id ∧
    (unwrap_kernel_schema
      (build_kernel_schema_impl (leafImpl k s (Except.ok name) nb md).2
        [s.elements.next_id]).2
      (leafImpl k s (Except.ok name) nb md).2.elements.next_id).1 =
      some (StructType.mk
        [StructField.mk name (DataType.primitive (leafPrim k)) nb md]) := by
  cases k <;>
    refine ⟨rfl, ?_, ?_⟩ <;>
      simp [leafImpl, leafPrim, visit_schema_string_impl,
        visit_schema_long_impl, visit_schema_integer_impl,
        visit_schema_short_impl, visit_schema_byte_impl,
        visit_schema_float_impl, visit_schema_double_impl,
        visit_schema_boolean_impl, visit_schema_binary_impl,
        visit_schema_date_impl, visit_schema_timestamp_impl,
        visit_schema_timestamp_ntz_impl, build_kernel_schema_impl,
        extract_fields, unwrap_field, unwrap_kernel_schema, wrap_field,
        wrap_schema, StructField.new, StructField.with_metadata,
        StructField.name, StructField.data_type, StructField.nullable,
        ReferenceSet.insert, ReferenceSet.take, removeFirst, lookupFirst]

/-- C8: variant construction succeeds exactly when the child handle
resolves to a Struct-shaped element (a finished Schema or a Struct data
type), producing a Variant field wrapping that struct at the returned
handle; every other live element kind, and a dead handle, is rejected with
an error. -/
theorem variant_requires_struct_shaped (s : KernelSchemaVisitorState)
    (name : String) (vsid : Nat) (nb : Bool) (md : Metadata) :
    match lookupFirst s.elements.entries vsid with
    | some (SchemaElement.schema st) =>
        (visit_schema_variant_impl s (Except.ok name) vsid nb md).1 =
          Except.ok s.elements.next_id ∧
        lookupFirst (visit_schema_variant_impl s (Except.ok name) vsid
          nb md).2.elements.entries s.elements.next_id =
          some (SchemaElement.field (StructField.mk name
            (DataType.variant st) nb md))
    | some (SchemaElement.dataType (DataType.struct st)) =>
        (visit_schema_variant_impl s (Except.ok name) vsid nb md).1 =
          Except.ok s.elements.next_id ∧
        lookupFirst (visit_schema_variant_impl s (Except.ok name) vsid
          nb md).2.elements.entries s.elements.next_id =
          some (SchemaElement.field (StructField.mk name
            (DataType.variant st) nb md))
    | _ =>
        (visit_schema_variant_impl s (Except.ok name) vsid nb md).1 =
          Except.error ("Invalid variant struct ID " ++ toString vsid
            ++ " - must be Schema or Struct DataType") := by
  rcases hl : lookupFirst s.elements.entries vsid with _ | el
  all_goals
    have hrm := (removeFirst_fst s.elements.entries vsid).trans hl
  · simp [visit_schema_variant_impl, ReferenceSet.take, hrm]
  · cases el with
    | field f => simp [visit_schema_variant_impl, ReferenceSet.take, hrm]
    | schema st =>
      refine ⟨?_, ?_⟩ <;>
        simp [visit_schema_variant_impl, ReferenceSet.take, hrm, wrap_field,
          ReferenceSet.insert, StructField.new, StructField.with_metadata,
          StructField.name, StructField.data_type, StructField.nullable,
          lookupFirst]
    | dataType dt =>
      cases dt with
      | struct st =>
        refine ⟨?_, ?_⟩ <;>
          simp [visit_schema_variant_impl, ReferenceSet.take, hrm, wrap_field,
            ReferenceSet.insert, StructField.new, StructField.with_metadata,
            StructField.name, StructField.data_type, StructField.nullable,
            lookupFirst]
      | primitive p => simp [visit_schema_variant_impl, ReferenceSet.take, hrm]
      | array a => simp [visit_schema_variant_impl, ReferenceSet.take, hrm]
      | map m => simp [visit_schema_variant_impl, ReferenceSet.take, hrm]
      | variant st => simp [visit_schema_variant_impl, ReferenceSet.take, hrm]

theorem extract_fields_of_lookups (ctx : String) :
    ∀ (ids : List Nat) (fs : List StructField) (s : KernelSchemaVisitorState),
    ids.Nodup →
    ids.map (fun i => lookupFirst s.elements.entries i) =
      fs.map (fun f => some (SchemaElement.field f)) →
    (extract_fields ctx s ids).1 = Except.ok fs := by
  intro ids
  induction ids with
  | nil =>
    intro fs s _ hmap
    cases fs with
    | nil => rfl
    | cons f ft => simp at hmap
  | cons i it ih =>
    intro fs s hnd hmap
    cases fs with
    | nil => simp at hmap
    | cons f ft =>
      simp only [List.map_cons, List.cons.injEq] at hmap
      obtain ⟨h1, h2⟩ := hmap
      rw [List.nodup_cons] at hnd
      have hrm := (removeFirst_fst s.elements.entries i).trans h1
      have hpres : ∀ j ∈ it,
          lookupFirst (removeFirst s.elements.entries i).2 j =
            lookupFirst s.elements.entries j := by
        intro j hj
        exact lookupFirst_removeFirst_ne s.elements.entries i j
          (fun he => hnd.1 (he ▸ hj))
      have hstep : it.map (fun j =>
          lookupFirst (removeFirst s.elements.entries i).2 j) =
          ft.map (fun f => some (SchemaElement.field f)) :=
        (List.map_congr_left hpres).trans h2
      have hu1 : unwrap_field s i =
          (some f, KernelSchemaVisitorState.mk (ReferenceSet.mk
            s.elements.next_id (removeFirst s.elements.entries i).2)) := by
        simp [unwrap_field, ReferenceSet.take, hrm]
      have hrec := ih ft (KernelSchemaVisitorState.mk (ReferenceSet.mk
        s.elements.next_id (removeFirst s.elements.entries i).2)) hnd.2 hstep
      simp [extract_fields, hu1, hrec]

/-- C4: for child handles that all resolve as Fields (pointwise, in a
duplicate-free list), struct construction produces a Struct whose field
list is exactly the resolved fields in exactly the supplied order, and
assembly produces a Schema with the same order preservation — regardless
of the order the children were inserted in (the state is arbitrary). -/
theorem struct_preserves_child_order (s : KernelSchemaVisitorState)
    (name : String) (ids : List Nat) (fs : List StructField) (nb : Bool)
    (md : Metadata) (hnd : ids.Nodup)
    (hmap : ids.map (fun i => lookupFirst s.elements.entries i) =
      fs.map (fun f => some (SchemaElement.field f))) :
    (visit_schema_struct_impl s (Except.ok name) ids nb md).1 =
      Except.ok s.elements.next_id ∧
    lookupFirst (visit_schema_struct_impl s (Except.ok name) ids
      nb md).2.elements.entries s.elements.next_id =
      some (SchemaElement.field (StructField.mk name
        (DataType.struct (StructType.mk fs)) nb md)) ∧
    (build_kernel_schema_impl s ids).1 = Except.ok s.elements.next_id ∧
    lookupFirst (build_kernel_schema_impl s ids).2.elements.entries
      s.elements.next_id =
      some (SchemaElement.schema (StructType.mk fs)) := by
  have hex1 := extract_fields_of_lookups "struct" ids fs s hnd hmap
  have hex2 := extract_fields_of_lookups "schema" ids fs s hnd hmap
  have htl1 := extract_fields_takeLike "struct" ids s
  have htl2 := extract_fields_takeLike "schema" ids s
  refine ⟨?_, ?_, ?_, ?_⟩
  · simp [visit_schema_struct_impl, hex1, wrap_field, ReferenceSet.insert,
      htl1.1]
  · have hlw := lookup_wrap_field (extract_fields "struct" s ids).2
      ((StructField.new name (DataType.struct (StructType.mk fs))
        nb).with_metadata md)
    rw [htl1.1] at hlw
    simpa [visit_schema_struct_impl, hex1, StructField.new,
      StructField.with_metadata, StructField.name, StructField.data_type,
      StructField.nullable] using hlw
  · simp [build_kernel_schema_impl, hex2, wrap_schema, ReferenceSet.insert,
      htl2.1]
  · have hlw := lookup_wrap_schema (extract_fields "schema" s ids).2
      (StructType.mk fs)
    rw [htl2.1] at hlw
    simpa [build_kernel_schema_impl, hex2] using hlw

/-- Witness for C4: two fields inserted in the order 1 then 2, supplied to
the operations in the reversed order [2, 1]; the resulting struct and
schema list the fields in the supplied order. -/
theorem struct_preserves_child_order_witness :
    ([2, 1] : List Nat).Nodup ∧
    ([2, 1] : List Nat).map (fun i => lookupFirst
      (KernelSchemaVisitorState.mk (ReferenceSet.mk 3
        [(1, SchemaElement.field (StructField.mk "a"
          (DataType.primitive PrimitiveType.long) false [])),
         (2, SchemaElement.field (StructField.mk "b"
          (DataType.primitive PrimitiveType.string) true []))])).elements.entries i) =
      ([StructField.mk "b" (DataType.primitive PrimitiveType.string) true [],
        StructField.mk "a" (DataType.primitive PrimitiveType.long) false []].map
        (fun f => some (SchemaElement.field f))) ∧
    ((visit_schema_struct_impl
      (KernelSchemaVisitorState.mk (ReferenceSet.mk 3
        [(1, SchemaElement.field (StructField.mk "a"
          (DataType.primitive PrimitiveType.long) false [])),
         (2, SchemaElement.field (StructField.mk "b"
          (DataType.primitive PrimitiveType.string) true []))]))
      (Except.ok "outer") [2, 1] false []).1 = Except.ok 3 ∧
     lookupFirst (visit_schema_struct_impl
      (KernelSchemaVisitorState.mk (ReferenceSet.mk 3
        [(1, SchemaElement.field (StructField.mk "a"
          (DataType.primitive PrimitiveType.long) false [])),
         (2, SchemaElement.field (StructField.mk "b"
          (DataType.primitive PrimitiveType.string) true []))]))
      (Except.ok "outer") [2, 1] false []).2.elements.entries 3 =
      some (SchemaElement.field (StructField.mk "outer"
        (DataType.struct (StructType.mk
          [StructField.mk "b" (DataType.primitive PrimitiveType.string) true [],
           StructField.mk "a" (DataType.primitive PrimitiveType.long) false []]))
        false [])) ∧
     (build_kernel_schema_impl
      (KernelSchemaVisitorState.mk (ReferenceSet.mk 3
        [(1, SchemaElement.field (StructField.mk "a"
          (DataType.primitive PrimitiveType.long) false [])),
         (2, SchemaElement.field (StructField.mk "b"
          (DataType.primitive PrimitiveType.string) true []))]))
      [2, 1]).1 = Except.ok 3 ∧
     lookupFirst (build_kernel_schema_impl
      (KernelSchemaVisitorState.mk (ReferenceSet.mk 3
        [(1, SchemaElement.field (StructField.mk "a"
          (DataType.primitive PrimitiveType.long) false [])),
         (2, SchemaElement.field (StructField.mk "b"
          (DataType.primitive PrimitiveType.string) true []))]))
      [2, 1]).2.elements.entries 3 =
      some (SchemaElement.schema (StructType.mk
        [StructField.mk "b" (DataType.primitive PrimitiveType.string) true [],
         StructField.mk "a" (DataType.primitive PrimitiveType.long) false []]))) :=
  ⟨by decide, rfl,
   struct_preserves_child_order
     (KernelSchemaVisitorState.mk (ReferenceSet.mk 3
       [(1, SchemaElement.field (StructField.mk "a"
         (DataType.primitive PrimitiveType.long) false [])),
        (2, SchemaElement.field (StructField.mk "b"
         (DataType.primitive PrimitiveType.string) true []))]))
     "outer" [2, 1]
     [StructField.mk "b" (DataType.primitive PrimitiveType.string) true [],
      StructField.mk "a" (DataType.primitive PrimitiveType.long) false []]
     false [] (by decide) rfl⟩

/-- C7: for an i8-ranged scale, if the precision/scale combination is
illegal per the underlying type system's rule (`DecimalType.try_new`
fails) then both the decimal field operation and the bare decimal type
operation fail with the invalid-decimal error, leaving the arena
untouched; for every legal combination both succeed and the constructed
decimal carries exactly the supplied precision and scale. -/
theorem decimal_validation (s : KernelSchemaVisitorState) (name : String)
    (p : Nat) (sc : Int) (nb : Bool) (md : Metadata)
    (hrange : -128 ≤ sc ∧ sc ≤ 127) :
    (DecimalType.try_new p (i8_as_u8 sc) = none →
      visit_schema_decimal_impl s (Except.ok name) p sc nb md =
        (Except.error "Invalid decimal type precision/scale", s) ∧
      create_decimal_type_impl s p sc =
        (Except.error "Invalid decimal type precision/scale", s)) ∧
    (∀ dt, DecimalType.try_new p (i8_as_u8 sc) = some dt →
      dt.precision = p ∧ (dt.scale : Int) = sc ∧
      (visit_schema_decimal_impl s (Except.ok name) p sc nb md).1 =
        Except.ok s.elements.next_id ∧
      lookupFirst (visit_schema_decimal_impl s (Except.ok name) p sc
        nb md).2.elements.entries s.elements.next_id =
        some (SchemaElement.field (StructField.mk name
          (DataType.primitive (PrimitiveType.decimal dt)) nb md)) ∧
      (create_decimal_type_impl s p sc).1 = Except.ok s.elements.next_id ∧
      lookupFirst (create_decimal_type_impl s p sc).2.elements.entries
        s.elements.next_id =
        some (SchemaElement.dataType (DataType.primitive
          (PrimitiveType.decimal dt)))) := by
  constructor
  · intro htn
    constructor
    · simp [visit_schema_decimal_impl, htn]
    · simp [create_decimal_type_impl, htn]
  · intro dt htn
    have hcond : 1 ≤ p ∧ p ≤ 38 ∧ i8_as_u8 sc ≤ p := by
      by_contra hc
      simp [DecimalType.try_new, hc] at htn
    have hdt : dt = DecimalType.mk p (i8_as_u8 sc) := by
      simp [DecimalType.try_new, hcond] at htn
      exact htn.symm
    subst hdt
    have htn2 : DecimalType.try_new p (i8_as_u8 sc) =
        some (DecimalType.mk p (i8_as_u8 sc)) := by
      simp [DecimalType.try_new, hcond]
    have hsc : ((i8_as_u8 sc : Nat) : Int) = sc := by
      have h38 : i8_as_u8 sc ≤ 38 := le_trans hcond.2.2 hcond.2.1
      simp only [i8_as_u8] at h38 ⊢
      omega
    refine ⟨rfl, hsc, ?_, ?_, ?_, ?_⟩
    · simp [visit_schema_decimal_impl, htn2, wrap_field, ReferenceSet.insert]
    · simp [visit_schema_decimal_impl, htn2, wrap_field, ReferenceSet.insert,
        StructField.new, StructField.with_metadata, StructField.name,
        StructField.data_type, StructField.nullable, lookupFirst]
    · simp [create_decimal_type_impl, htn2, wrap_data_type,
        ReferenceSet.insert]
    · simp [create_decimal_type_impl, htn2, wrap_data_type,
        ReferenceSet.insert, lookupFirst]

/-- Witness for C7: precision 0 (illegal, rejected with no insertion) and
precision 10 / scale 2 (legal, succeeding with exactly those
parameters), both from the empty visitor state. -/
theorem decimal_validation_witness :
    ((-128 : Int) ≤ 0 ∧ (0 : Int) ≤ 127) ∧
    DecimalType.try_new 0 (i8_as_u8 0) = none ∧
    (visit_schema_decimal_impl
        (KernelSchemaVisitorState.mk (ReferenceSet.mk 1 []))
        (Except.ok "d") 0 0 true [] =
      (Except.error "Invalid decimal type precision/scale",
       KernelSchemaVisitorState.mk (ReferenceSet.mk 1 [])) ∧
     create_decimal_type_impl
        (KernelSchemaVisitorState.mk (ReferenceSet.mk 1 [])) 0 0 =
      (Except.error "Invalid decimal type precision/scale",
       KernelSchemaVisitorState.mk (ReferenceSet.mk 1 []))) ∧
    ((-128 : Int) ≤ 2 ∧ (2 : Int) ≤ 127) ∧
    DecimalType.try_new 10 (i8_as_u8 2) = some (DecimalType.mk 10 2) ∧
    ((DecimalType.mk 10 2).precision = 10 ∧
     ((DecimalType.mk 10 2).scale : Int) = 2 ∧
     (visit_schema_decimal_impl
        (KernelSchemaVisitorState.mk (ReferenceSet.mk 1 []))
        (Except.ok "d") 10 2 false []).1 = Except.ok 1 ∧
     lookupFirst (visit_schema_decimal_impl
        (KernelSchemaVisitorState.mk (ReferenceSet.mk 1 []))
        (Except.ok "d") 10 2 false []).2.elements.entries 1 =
       some (SchemaElement.field (StructField.mk "d"
         (DataType.primitive (PrimitiveType.decimal (DecimalType.mk 10 2)))
         false [])) ∧
     (create_decimal_type_impl
        (KernelSchemaVisitorState.mk (ReferenceSet.mk 1 [])) 10 2).1 =
       Except.ok 1 ∧
     lookupFirst (create_decimal_type_impl
        (KernelSchemaVisitorState.mk (ReferenceSet.mk 1 []))
        10 2).2.elements.entries 1 =
       some (SchemaElement.dataType (DataType.primitive
         (PrimitiveType.decimal (DecimalType.mk 10 2))))) :=
  ⟨⟨by decide, by decide⟩, rfl,
   (decimal_validation (KernelSchemaVisitorState.mk (ReferenceSet.mk 1 []))
     "d" 0 0 true [] ⟨by decide, by decide⟩).1 rfl,
   ⟨by decide, by decide⟩, rfl,
   (decimal_validation (KernelSchemaVisitorState.mk (ReferenceSet.mk 1 []))
     "d" 10 2 false [] ⟨by decide, by decide⟩).2 (DecimalType.mk 10 2) rfl⟩

theorem unwrap_field_snd_entries (s : KernelSchemaVisitorState) (i : Nat) :
    (unwrap_field s i).2.elements.entries =
      (removeFirst s.elements.entries i).2 := by
  unfold unwrap_field
  rcases hr : (removeFirst s.elements.entries i).1 with _ | el
  · simp [ReferenceSet.take, hr]
  · cases el <;> simp [ReferenceSet.take, hr]

theorem unwrap_data_type_snd_entries (s : KernelSchemaVisitorState)
    (i : Nat) :
    (unwrap_data_type s i).2.elements.entries =
      (removeFirst s.elements.entries i).2 := by
  unfold unwrap_data_type
  rcases hr : (removeFirst s.elements.entries i).1 with _ | el
  · simp [ReferenceSet.take, hr]
  · cases el <;> simp [ReferenceSet.take, hr]

theorem unwrap_field_preserves_ne (s : KernelSchemaVisitorState)
    (i h : Nat) (hne : h ≠ i) :
    lookupFirst (unwrap_field s i).2.elements.entries h =
      lookupFirst s.elements.entries h := by
  rw [unwrap_field_snd_entries]
  exact lookupFirst_removeFirst_ne s.elements.entries i h hne

theorem unwrap_data_type_preserves_ne (s : KernelSchemaVisitorState)
    (i h : Nat) (hne : h ≠ i) :
    lookupFirst (unwrap_data_type s i).2.elements.entries h =
      lookupFirst s.elements.entries h := by
  rw [unwrap_data_type_snd_entries]
  exact lookupFirst_removeFirst_ne s.elements.entries i h hne

theorem extract_fields_preserves_outside (ctx : String) :
    ∀ (ids : List Nat) (s : KernelSchemaVisitorState) (h : Nat),
    h ∉ ids →
    lookupFirst (extract_fields ctx s ids).2.elements.entries h =
      lookupFirst s.elements.entries h
  | [], s, h, _ => rfl
  | i :: it, s, h, hmem => by
    have hne : h ≠ i := fun he => hmem (he ▸ List.mem_cons_self i it)
    have hit : h ∉ it := fun hc => hmem (List.mem_cons_of_mem i hc)
    unfold extract_fields
    rcases hr : (unwrap_field s i).1 with _ | f
    · simpa [hr] using unwrap_field_preserves_ne s i h hne
    · have hrec := extract_fields_preserves_outside ctx it
        (unwrap_field s i).2 h hit
      rcases hr2 : (extract_fields ctx (unwrap_field s i).2 it).1 with e | fs
      · simp [hr, hr2]
        exact hrec.trans (unwrap_field_preserves_ne s i h hne)
      · simp [hr, hr2]
        exact hrec.trans (unwrap_field_preserves_ne s i h hne)

/-- C1 (amended): when a child handle supplied to struct or map
construction fails to resolve, the operation returns an error and inserts
no new element (the issuance counter is unchanged and the surviving
entries are a sublist of the original ones), and every element whose
handle is not among the supplied child handles is untouched; however,
child handles processed before (or at) the failure point are consumed. -/
theorem struct_map_failure_behavior (s : KernelSchemaVisitorState)
    (name : String) (ids : List Nat) (nb : Bool) (md : Metadata)
    (kid vid : Nat) (vcn : Bool) :
    (∀ e s', visit_schema_struct_impl s (Except.ok name) ids nb md =
        (Except.error e, s') →
      s'.elements.next_id = s.elements.next_id ∧
      s'.elements.entries.Sublist s.elements.entries ∧
      ∀ h, h ∉ ids →
        lookupFirst s'.elements.entries h =
          lookupFirst s.elements.entries h) ∧
    (∀ e s', visit_schema_map_impl s (Except.ok name) kid vid vcn nb md =
        (Except.error e, s') →
      s'.elements.next_id = s.elements.next_id ∧
      s'.elements.entries.Sublist s.elements.entries ∧
      ∀ h, h ≠ kid → h ≠ vid →
        lookupFirst s'.elements.entries h =
          lookupFirst s.elements.entries h) := by
  constructor
  · intro e s' heq
    simp only [visit_schema_struct_impl] at heq
    rcases hr : (extract_fields "struct" s ids).1 with e0 | fs
    · simp only [hr] at heq
      obtain ⟨-, hs⟩ := Prod.mk.injEq .. ▸ heq
      subst hs
      have htl := extract_fields_takeLike "struct" ids s
      exact ⟨htl.1, htl.2,
        fun h hm => extract_fields_preserves_outside "struct" ids s h hm⟩
    · simp [hr] at heq
  · intro e s' heq
    simp only [visit_schema_map_impl] at heq
    rcases hk : (unwrap_data_type s kid).1 with _ | kt
    · simp only [hk] at heq
      obtain ⟨-, hs⟩ := Prod.mk.injEq .. ▸ heq
      subst hs
      have htl := unwrap_data_type_takeLike s kid
      exact ⟨htl.1, htl.2,
        fun h hk2 _ => unwrap_data_type_preserves_ne s kid h hk2⟩
    · rcases hv : (unwrap_data_type (unwrap_data_type s kid).2 vid).1
        with _ | vt
      · simp only [hk, hv] at heq
        obtain ⟨-, hs⟩ := Prod.mk.injEq .. ▸ heq
        subst hs
        have htl1 := unwrap_data_type_takeLike s kid
        have htl2 := unwrap_data_type_takeLike (unwrap_data_type s kid).2 vid
        refine ⟨htl2.1.trans htl1.1, htl2.2.trans htl1.2, ?_⟩
        intro h hk2 hv2
        exact (unwrap_data_type_preserves_ne (unwrap_data_type s kid).2 vid
          h hv2).trans (unwrap_data_type_preserves_ne s kid h hk2)
      · simp [hk, hv] at heq

/-- Counterexample to C1 as stated: with field handle 1 live and handle 99
unknown, the struct operation on child handles [1, 99] fails — but handle
1, which was live and valid before the call, has been consumed by the
failing operation and no longer resolves, contradicting the claim that
none of the input handles are consumed on failure. -/
theorem struct_all_or_nothing_counterexample :
    (visit_schema_struct_impl
      (KernelSchemaVisitorState.mk (ReferenceSet.mk 2
        [(1, SchemaElement.field (StructField.mk "a"
          (DataType.primitive PrimitiveType.long) false []))]))
      (Except.ok "s") [1, 99] false []).1 =
      Except.error "Invalid field ID 99 in struct" ∧
    lookupFirst (KernelSchemaVisitorState.mk (ReferenceSet.mk 2
        [(1, SchemaElement.field (StructField.mk "a"
          (DataType.primitive PrimitiveType.long) false []))])).elements.entries
      1 =
      some (SchemaElement.field (StructField.mk "a"
        (DataType.primitive PrimitiveType.long) false [])) ∧
    lookupFirst (visit_schema_struct_impl
      (KernelSchemaVisitorState.mk (ReferenceSet.mk 2
        [(1, SchemaElement.field (StructField.mk "a"
          (DataType.primitive PrimitiveType.long) false []))]))
      (Except.ok "s") [1, 99] false []).2.elements.entries 1 = none :=
  ⟨rfl, rfl, rfl⟩

/-- Witness for the amended C1 at concrete inputs: a struct call failing
on handle 99 after consuming handle 1, and a map call failing on a dead
key handle. -/
theorem struct_map_failure_behavior_witness :
    ((KernelSchemaVisitorState.mk (ReferenceSet.mk 2 [])).elements.next_id =
      (KernelSchemaVisitorState.mk (ReferenceSet.mk 2
        [(1, SchemaElement.field (StructField.mk "a"
          (DataType.primitive PrimitiveType.long) false []))])).elements.next_id ∧
     (KernelSchemaVisitorState.mk
       (ReferenceSet.mk 2 [])).elements.entries.Sublist
       (KernelSchemaVisitorState.mk (ReferenceSet.mk 2
        [(1, SchemaElement.field (StructField.mk "a"
          (DataType.primitive PrimitiveType.long) false []))])).elements.entries ∧
     ∀ h, h ∉ ([1, 99] : List Nat) →
       lookupFirst (KernelSchemaVisitorState.mk
         (ReferenceSet.mk 2 [])).elements.entries h =
       lookupFirst (KernelSchemaVisitorState.mk (ReferenceSet.mk 2
        [(1, SchemaElement.field (StructField.mk "a"
          (DataType.primitive PrimitiveType.long) false []))])).elements.entries
         h) ∧
    ((KernelSchemaVisitorState.mk (ReferenceSet.mk 2
        [(1, SchemaElement.field (StructField.mk "a"
          (DataType.primitive PrimitiveType.long) false []))])).elements.next_id =
      (KernelSchemaVisitorState.mk (ReferenceSet.mk 2
        [(1, SchemaElement.field (StructField.mk "a"
          (DataType.primitive PrimitiveType.long) false []))])).elements.next_id ∧
     (KernelSchemaVisitorState.mk (ReferenceSet.mk 2
        [(1, SchemaElement.field (StructField.mk "a"
          (DataType.primitive PrimitiveType.long)
            false []))])).elements.entries.Sublist
       (KernelSchemaVisitorState.mk (ReferenceSet.mk 2
        [(1, SchemaElement.field (StructField.mk "a"
          (DataType.primitive PrimitiveType.long) false []))])).elements.entries ∧
     ∀ h, h ≠ 5 → h ≠ 6 →
       lookupFirst (KernelSchemaVisitorState.mk (ReferenceSet.mk 2
        [(1, SchemaElement.field (StructField.mk "a"
          (DataType.primitive PrimitiveType.long) false []))])).elements.entries
         h =
       lookupFirst (KernelSchemaVisitorState.mk (ReferenceSet.mk 2
        [(1, SchemaElement.field (StructField.mk "a"
          (DataType.primitive PrimitiveType.long) false []))])).elements.entries
         h) :=
  ⟨(struct_map_failure_behavior
      (KernelSchemaVisitorState.mk (ReferenceSet.mk 2
        [(1, SchemaElement.field (StructField.mk "a"
          (DataType.primitive PrimitiveType.long) false []))]))
      "s" [1, 99] false [] 5 6 false).1
      "Invalid field ID 99 in struct"
      (KernelSchemaVisitorState.mk (ReferenceSet.mk 2 [])) rfl,
   (struct_map_failure_behavior
      (KernelSchemaVisitorState.mk (ReferenceSet.mk 2
        [(1, SchemaElement.field (StructField.mk "a"
          (DataType.primitive PrimitiveType.long) false []))]))
      "s" [1, 99] false [] 5 6 false).2
      "Invalid key type ID 5 for map"
      (KernelSchemaVisitorState.mk (ReferenceSet.mk 2
        [(1, SchemaElement.field (StructField.mk "a"
          (DataType.primitive PrimitiveType.long) false []))])) rfl⟩
